import Mathlib

/-!
# Martini pipeline driver and its randomised test harness

A shallow embedding of `src/uti_phgrm/NewOri/cNewO_Appli.cpp`.

The file is a shell-out orchestrator: it builds command strings and hands
them to the host toolkit.  The embedding keeps the string building exactly
as written and records every observable action (child process, line on
standard output, directory purge) as an `Event` in a trace.

Services of the host toolkit that the file calls but does not define are
collected in the `Toolkit` record and stay parameters of every definition.
Floating-point members of the harness are carried as exact rationals.
-/

namespace NewOri

/-! ## Host toolkit -/

/-- Services of the host toolkit that `cNewO_Appli.cpp` calls and that are
defined in other files of the suite.  Each field stands for the call named
in its comment; nothing is assumed about the values they return. -/
structure Toolkit where
  /-- `MM3dBinFile_quotes(aCom)`: the toolkit binary followed by `aCom`. -/
  MM3dBinFile_quotes : String → String
  /-- `MMBinFile(aName)`: full path of a binary of the toolkit. -/
  MMBinFile : String → String
  /-- `MM3DStr`: name of the main binary. -/
  MM3DStr : String
  /-- Modelled from the spec: `Str2eTypeModeNO(aName)`, the enumeration
  lookup, is defined elsewhere; the spec says unknown tags fail at parse
  time, so the result is `none` on a name that is not an enumerator and the
  process stops there. -/
  Str2eTypeModeNO : String → Option Nat
  /-- `cElemAppliSetFile(aPat).mDir`: working directory of a pattern. -/
  DirOfPat : String → String
  /-- `cElemAppliSetFile(aPat).SetIm()`: the images matching a pattern. -/
  SetIm : String → List String
  /-- Modelled from the spec: `StdCorrecNameOrient(aName,aDir)` is defined
  elsewhere; the spec says the name is normalised against the working
  directory and a non-existent calibration directory aborts the run, so the
  result is the normalised name, or `none` when the process stops there. -/
  StdCorrecNameOrient : String → String → Option String
  /-- `MMVisualMode`: the process-wide visual-mode flag. -/
  MMVisualMode : Bool
  /-- `ToString(double)`: rendering of a real value. -/
  ToStringReal : ℚ → String

/-- Modelled from the spec: the `QUOTE` helper is not defined in this file;
the spec says the pattern is wrapped in double quotes. -/
def QUOTE (aStr : String) : String := "\"" ++ aStr ++ "\""

/-- Modelled from the spec: `ToString(bool)` is not defined in this file;
the spec says the `Quick=` value is rendered as the literal `0` or `1`. -/
def ToStringBool (b : Bool) : String := if b then "1" else "0"

/-- `std::cout << int`: decimal rendering of an iteration index. -/
def ToStringInt (k : Int) : String := toString k

/-! ## Observable actions -/

/-- One observable action of the orchestrator. -/
inductive Event where
  /-- `System(aCom)`: a child process running `aCom`. -/
  | System (aCom : String)
  /-- `std::cout << "COM= " << aFullCom << "\n"`. -/
  | CoutCom (aFullCom : String)
  /-- `std::cout << " DONE " << aCom << " in time " << aChrono.uval() << "\n"`;
  the elapsed time is a wall-clock reading and is not recorded. -/
  | CoutDone (aCom : String)
  /-- Any other text written to standard output. -/
  | Cout (aText : String)
  /-- `ELISE_fp::PurgeDirRecursif(aDir)`. -/
  | PurgeDirRecursif (aDir : String)
  /-- Construction of `cNewO_OneIm(aNM,aName)` for one image. -/
  | NewO_OneIm (aName : String)
  deriving DecidableEq, Repr

/-- Commands handed to `System`, in order. -/
def spawned : List Event → List String
  | [] => []
  | Event.System c :: es => c :: spawned es
  | _ :: es => spawned es

/-- Commands printed after `COM= `, in order. -/
def printed : List Event → List String
  | [] => []
  | Event.CoutCom c :: es => c :: printed es
  | _ :: es => printed es

/-- Commands emitted by the driver, run or printed, in order. -/
def commands : List Event → List String
  | [] => []
  | Event.System c :: es => c :: commands es
  | Event.CoutCom c :: es => c :: commands es
  | _ :: es => commands es

/-- Directories purged, in order. -/
def purged : List Event → List String
  | [] => []
  | Event.PurgeDirRecursif d :: es => d :: purged es
  | _ :: es => purged es

/-- Texts of the free-form lines written to standard output, in order. -/
def logged : List Event → List String
  | [] => []
  | Event.Cout s :: es => s :: logged es
  | _ :: es => logged es

/-- The string `frag` occurs in `s` as a contiguous run of characters. -/
def Frag (frag s : String) : Prop := frag.data <:+: s.data

instance instDecidableFrag (frag s : String) : Decidable (Frag frag s) := by
  unfold Frag; infer_instance

/-- The string `s` ends with `tail`. -/
def EndsWith (s tail : String) : Prop := tail.data <:+ s.data

/-- The string `s` starts with `head`. -/
def StartsWith (s head : String) : Prop := head.data <+: s.data

/-! ## Pipeline driver -/

/-- `TheStdModeNewOri`. -/
def TheStdModeNewOri : String := "Std"

/-- `ToTypeNO`: the enumeration lookup of `eModeNO_` followed by the tag. -/
def ToTypeNO (tk : Toolkit) (aStr : String) : Option Nat :=
  tk.Str2eTypeModeNO ("eModeNO_" ++ aStr)

/-- Members of `cAppli_Martini`.  `mNameOriCalibIsInit` is the answer of
`EAMIsInit(&mNameOriCalib)`; the timer `aChrono` is not recorded. -/
structure cAppli_Martini where
  mNameOriCalib : String
  mNameOriCalibIsInit : Bool
  mPat : String
  mExe : Bool
  mQuick : Bool
  mPrefHom : String
  mExtName : String
  mNameModeNO : String
  mModeNO : Nat
  deriving DecidableEq, Repr

/-- The value of the local `aFullCom` of `cAppli_Martini::StdCom` when it is
handed to `System` or printed. -/
def cAppli_Martini.FullCom (tk : Toolkit) (a : cAppli_Martini)
    (aCom : String) (aPost : String) : String :=
  let aFullCom := tk.MM3dBinFile_quotes "TestLib " ++ aCom ++ " " ++ QUOTE a.mPat
  let aFullCom :=
    if a.mNameOriCalibIsInit then aFullCom ++ " OriCalib=" ++ a.mNameOriCalib
    else aFullCom
  let aFullCom := aFullCom ++ (" Quick=" ++ ToStringBool a.mQuick)
  let aFullCom := aFullCom ++ aPost
  let aFullCom := aFullCom ++ " PrefHom=" ++ a.mPrefHom
  let aFullCom := aFullCom ++ " ExtName=" ++ a.mExtName
  let aFullCom := aFullCom ++ " ModeNO=" ++ a.mNameModeNO
  aFullCom

/-- `cAppli_Martini::StdCom`. -/
def cAppli_Martini.StdCom (tk : Toolkit) (a : cAppli_Martini)
    (aCom : String) (aPost : String) : List Event :=
  let aFullCom := a.FullCom tk aCom aPost
  [if a.mExe then Event.System aFullCom else Event.CoutCom aFullCom,
   Event.CoutDone aCom]

/-- `cAppli_Martini::Banniere`. -/
def Banniere (Quick : Bool) : List Event :=
  if Quick then
    [Event.Cout "\n",
     Event.Cout " *********************************************\n",
     Event.Cout " *     MART-ingale d'                        *\n",
     Event.Cout " *     INI-tialisation                       *\n",
     Event.Cout " *********************************************\n\n"]
  else
    [Event.Cout "\n",
     Event.Cout " *********************************************\n",
     Event.Cout " *     MARTIN                                *\n",
     Event.Cout " *     Gale d'                               *\n",
     Event.Cout " *     IN-itialisation (stronger version)    *\n",
     Event.Cout " *********************************************\n\n"]

/-- `cAppli_Martini::DoAll`. -/
def cAppli_Martini.DoAll (tk : Toolkit) (a : cAppli_Martini) : List Event :=
  a.StdCom tk "NO_AllOri2Im" ""
    ++ a.StdCom tk "NO_AllImTriplet" ""
    ++ a.StdCom tk "NO_GenTripl" " Show=false"
    ++ a.StdCom tk "NO_AllImOptTrip" ""
    ++ a.StdCom tk "NO_SolInit3" ""

/-- The named and positional arguments left by a successful `ElInitArgMain`
in `cAppli_Martini::cAppli_Martini`; `none` is an argument not given. -/
structure Args where
  Pat : String
  OriCalib : Option String
  Exe : Option Bool
  SH : Option String
  ExtName : Option String
  ModeNO : Option String
  deriving DecidableEq, Repr

/-- `cAppli_Martini::cAppli_Martini`: the object built and the per-image
constructions made, or `none` when a toolkit call stops the process. -/
def cAppli_Martini.ctor (tk : Toolkit) (args : Args) (Quick : Bool) :
    Option (cAppli_Martini × List Event) :=
  let mExe := args.Exe.getD true
  let mQuick := Quick
  let mPrefHom := args.SH.getD ""
  let mExtName := args.ExtName.getD ""
  let mNameModeNO := args.ModeNO.getD TheStdModeNewOri
  let mPat := args.Pat
  let mNameOriCalib := args.OriCalib.getD ""
  match ToTypeNO tk mNameModeNO with
  | none => none
  | some mModeNO =>
    let aDir := tk.DirOfPat mPat
    match tk.StdCorrecNameOrient mNameOriCalib aDir with
    | none => none
    | some aNameOriCalib =>
      some (cAppli_Martini.mk aNameOriCalib args.OriCalib.isSome mPat mExe
              mQuick mPrefHom mExtName mNameModeNO mModeNO,
            (tk.SetIm mPat).map Event.NewO_OneIm)

/-- `EXIT_SUCCESS`. -/
def EXIT_SUCCESS : Int := 0

/-- `CPP_Gene_Martini_main`: the returned status (`none` when the process
stopped before returning) and the trace of the run. -/
def CPP_Gene_Martini_main (tk : Toolkit) (args : Args) (Quick : Bool) :
    Option Int × List Event :=
  match cAppli_Martini.ctor tk args Quick with
  | none => (none, [])
  | some (anAppli, aPrep) =>
    if tk.MMVisualMode then (some EXIT_SUCCESS, aPrep)
    else (some EXIT_SUCCESS, aPrep ++ anAppli.DoAll tk ++ Banniere Quick)

/-- `CPP_Martini_main`. -/
def CPP_Martini_main (tk : Toolkit) (args : Args) : Option Int × List Event :=
  CPP_Gene_Martini_main tk args true

/-- `CPP_MartiniGin_main`. -/
def CPP_MartiniGin_main (tk : Toolkit) (args : Args) : Option Int × List Event :=
  CPP_Gene_Martini_main tk args false

/-! ## Randomised test harness -/

/-- Members of `cAppliTestMartini`; the `double` members are exact
rationals. -/
structure cAppliTestMartini where
  mPat : String
  mNameOriCalib : String
  mExtHom : String
  mK0 : Int
  mKIter : Int
  mDist : ℚ
  mVGFact : ℚ
  mProbaSel : ℚ

/-- The named and positional arguments left by a successful `ElInitArgMain`
in `cAppliTestMartini::cAppliTestMartini`. -/
structure TestArgs where
  Pat : String
  OriCalib : Option String
  K0 : Option Int
  deriving DecidableEq, Repr

/-- `cAppliTestMartini::cAppliTestMartini`; the members the constructor
leaves unset are given the value zero. -/
def cAppliTestMartini.ctor (args : TestArgs) : cAppliTestMartini :=
  cAppliTestMartini.mk args.Pat (args.OriCalib.getD "") "TestMartini"
    (args.K0.getD 0) 0 0 0 0

/-- `ElSquare`. -/
def ElSquare (x : ℚ) : ℚ := x * x

/-- The value of `mDist` set by `OneTest` from the first draw. -/
def SampleDist (u : ℚ) : ℚ := 2000 * ElSquare u

/-- The value of `mVGFact` set by `OneTest` from the second draw. -/
def SampleVGFact (u : ℚ) : ℚ := 1 / 2 + 2 * u

/-- The branch of `OneTest` on `mProbaSel`, with `aExpProba = 2.0`. -/
def RemapProbaSel (aProbaSel : ℚ) : ℚ :=
  if aProbaSel < 1 / 2 then aProbaSel ^ 2
  else 1 - (1 - aProbaSel) ^ 2

/-- The value of `mProbaSel` set by `OneTest` from the third draw:
`ElMax(0.0,ElMin(1.0,u))` and then the branch. -/
def SampleProbaSel (u : ℚ) : ℚ := RemapProbaSel (max 0 (min 1 u))

/-- The local `aComRat` of `OneTest`. -/
def cAppliTestMartini.ComRat (tk : Toolkit) (a : cAppliTestMartini)
    (aDist aVGFact aProbaSel : ℚ) : String :=
  tk.MMBinFile tk.MM3DStr ++ " Ratafia "
    ++ a.mPat
    ++ " Out=" ++ a.mExtHom
    ++ " DistPMul=" ++ tk.ToStringReal aDist
    ++ " MVG=" ++ tk.ToStringReal aVGFact
    ++ " OriCalib=" ++ a.mNameOriCalib
    ++ " ProbaSel=" ++ tk.ToStringReal aProbaSel

/-- The local `aComMartini` of `OneTest`. -/
def cAppliTestMartini.ComMartini (tk : Toolkit) (a : cAppliTestMartini) : String :=
  tk.MMBinFile tk.MM3DStr
    ++ " Martini "
    ++ a.mPat
    ++ " ExtName=TM"
    ++ " SH=" ++ a.mExtHom
    ++ " OriCalib=" ++ a.mNameOriCalib

/-- The local `aDirPurge` of `OneTest`. -/
def cAppliTestMartini.DirPurge (a : cAppliTestMartini) : String :=
  "NewOriTmpTM" ++ a.mExtHom ++ a.mNameOriCalib ++ "Quick/"

/-- The last line written by `OneTest`. -/
def PurgeLine (aKIter : Int) (aDirPurge : String) : String :=
  ToStringInt aKIter ++ " Purge=[" ++ aDirPurge ++ "]\n"

/-- `cAppliTestMartini::OneTest`, given the three results of `NRrandom3()`
in call order: the updated object and the trace of the iteration. -/
def cAppliTestMartini.OneTest (tk : Toolkit) (a : cAppliTestMartini)
    (aKIter : Int) (u1 u2 u3 : ℚ) : cAppliTestMartini × List Event :=
  let mDist := SampleDist u1
  let mVGFact := SampleVGFact u2
  let mProbaSel := SampleProbaSel u3
  let a' : cAppliTestMartini :=
    cAppliTestMartini.mk a.mPat a.mNameOriCalib a.mExtHom a.mK0 aKIter
      mDist mVGFact mProbaSel
  let aComRat := a'.ComRat tk mDist mVGFact mProbaSel
  let aComMartini := a'.ComMartini tk
  let aDirPurge := a'.DirPurge
  (a',
   [Event.Cout ("RAAT " ++ aComRat ++ "\n")]
     ++ (if aKIter ≥ a.mK0 then
           [Event.System aComRat, Event.System aComMartini,
            Event.PurgeDirRecursif aDirPurge]
         else [])
     ++ [Event.Cout (PurgeLine aKIter aDirPurge)])

/-- The first `n` iterations of the unbounded loop of `TestMartini_Main`
(`aK = 0, 1, …, n-1`), where `rand i` is the result of call number `i` of
`NRrandom3()`: the object after them and the trace so far. -/
def TestMartini_Loop (tk : Toolkit) (rand : Nat → ℚ) :
    Nat → cAppliTestMartini → cAppliTestMartini × List Event
  | 0, a => (a, [])
  | n + 1, a =>
    let r := TestMartini_Loop tk rand n a
    let s := r.1.OneTest tk (n : Int) (rand (3 * n)) (rand (3 * n + 1)) (rand (3 * n + 2))
    (s.1, r.2 ++ s.2)

/-- `TestMartini_Main`, observed over its first `n` iterations. -/
def TestMartini_Main (tk : Toolkit) (args : TestArgs) (rand : Nat → ℚ) (n : Nat) :
    List Event :=
  (TestMartini_Loop tk rand n (cAppliTestMartini.ctor args)).2

/-! ## A concrete toolkit for evaluation -/

/-- A toolkit instance used to evaluate the definitions on concrete runs:
the binary is `mm3d`, `Std` is the only mode, names are kept as given and
every real value is rendered as `R`. -/
def sampleToolkit : Toolkit where
  MM3dBinFile_quotes := fun aCom => "mm3d " ++ aCom
  MMBinFile := fun aName => aName
  MM3DStr := "mm3d"
  Str2eTypeModeNO := fun aName => if aName = "eModeNO_Std" then some 0 else none
  DirOfPat := fun _ => "./"
  SetIm := fun _ => []
  StdCorrecNameOrient := fun aName _ => some aName
  MMVisualMode := false
  ToStringReal := fun _ => "R"

/-- Modelled from the spec: `StdCorrecNameOrient` is defined elsewhere; in
the spec's scenario `Martini "IMG.*JPG" OriCalib=AllRel` the name reaches
every command as `AllRel`, so a toolkit as the spec describes it keeps the
name `AllRel` whenever its normalisation accepts it. -/
structure SpecToolkit extends Toolkit where
  StdCorrecNameOrient_AllRel : ∀ aDir aName : String,
    StdCorrecNameOrient "AllRel" aDir = some aName → aName = "AllRel"

/-- The sample toolkit, whose normalisation keeps every name. -/
def sampleSpecToolkit : SpecToolkit where
  toToolkit := sampleToolkit
  StdCorrecNameOrient_AllRel := fun _ _ h => (Option.some.inj h).symm

/-- Arguments of the scenario `MartiniGin "IMG.*JPG"`, also used with the
Martini entry point as `Martini "IMG.*JPG"`. -/
def scenarioPlainArgs : Args := ⟨"IMG.*JPG", none, none, none, none, none⟩

/-- The five stage names in the order of the stage sequence of the spec. -/
def stageNames : List String :=
  ["NO_AllOri2Im", "NO_AllImTriplet", "NO_GenTripl", "NO_AllImOptTrip", "NO_SolInit3"]

/-- The stage sequence of the spec: stage name and per-stage suffix, the
suffix being empty except for stage 3. -/
def specStages : List (String × String) :=
  [("NO_AllOri2Im", ""), ("NO_AllImTriplet", ""), ("NO_GenTripl", " Show=false"),
   ("NO_AllImOptTrip", ""), ("NO_SolInit3", "")]

/-- The command as the spec words it: the toolkit `TestLib` prefix, the
stage name, a space, the pattern in double quotes, ` OriCalib=<name>` only
when a calibration name was supplied, ` Quick=1` for the Martini entry point
and ` Quick=0` for MartiniGin, the per-stage suffix, and then
` PrefHom=<prefix> ExtName=<suffix> ModeNO=<mode>`. -/
def SpecCommand (aToolkitPrefix aStage aPat : String) (aCalib : Option String)
    (aMartini : Bool) (aStageSuffix aPrefHom aExtName aMode : String) : String :=
  aToolkitPrefix ++ aStage ++ " " ++ "\"" ++ aPat ++ "\""
    ++ (match aCalib with
        | some aName => " OriCalib=" ++ aName
        | none => "")
    ++ (if aMartini then " Quick=1" else " Quick=0")
    ++ aStageSuffix
    ++ " PrefHom=" ++ aPrefHom ++ " ExtName=" ++ aExtName ++ " ModeNO=" ++ aMode

/-- Arguments of the scenario `Martini "IMG.*JPG"` in non-execute mode. -/
def scenarioPrintArgs : Args := ⟨"IMG.*JPG", none, some false, none, none, none⟩

/-- Arguments of the scenario `Martini "IMG.*JPG" OriCalib=AllRel`. -/
def scenarioCalibArgs : Args := ⟨"IMG.*JPG", some "AllRel", none, none, none, none⟩

/-- Arguments of the scenario `Martini "IMG.*JPG" ModeNO=Bogus`. -/
def scenarioBogusArgs : Args := ⟨"IMG.*JPG", none, none, none, none, some "Bogus"⟩

/-- Arguments `Martini "IMG.*JPG" Exe=false "SH=A Show=false"`. -/
def showInPrefHomArgs : Args :=
  ⟨"IMG.*JPG", none, some false, some "A Show=false", none, none⟩

/-- Arguments `Martini "IMG.*JPG" Exe=false SH=OriCalib=X`. -/
def calibInPrefHomArgs : Args :=
  ⟨"IMG.*JPG", none, some false, some "OriCalib=X", none, none⟩

/-- The driver object built from `scenarioPrintArgs` with the sample
toolkit by the Martini entry point. -/
def scenarioPrintAppli : cAppli_Martini :=
  ⟨"", false, "IMG.*JPG", false, true, "", "", "Std", 0⟩

/-- The driver object built from `scenarioCalibArgs` with the sample
toolkit by the Martini entry point. -/
def scenarioCalibAppli : cAppli_Martini :=
  ⟨"AllRel", true, "IMG.*JPG", true, true, "", "", "Std", 0⟩

/-- Arguments of the harness scenario `TestMartini "IMG.*JPG" OriCalib=C K0=2`. -/
def scenarioTestArgs : TestArgs := ⟨"IMG.*JPG", some "C", some 2⟩

/-- The harness object after iteration 0 of the scenario with the three
draws equal to 1/4. -/
def scenarioSample : cAppliTestMartini :=
  ((cAppliTestMartini.ctor scenarioTestArgs).OneTest sampleToolkit 0
    (1 / 4) (1 / 4) (1 / 4)).1

/-! ## The harness: sampling -/

theorem ElSquare_nonneg (u : ℚ) : 0 ≤ ElSquare u := by
  unfold ElSquare; exact mul_self_nonneg u

theorem ElSquare_le_one (u : ℚ) (h0 : 0 ≤ u) (h1 : u < 1) : ElSquare u ≤ 1 := by
  unfold ElSquare; nlinarith

theorem RemapProbaSel_nonneg (v : ℚ) (h0 : 0 ≤ v) (h1 : v ≤ 1) :
    0 ≤ RemapProbaSel v := by
  unfold RemapProbaSel
  split_ifs with h
  · positivity
  · nlinarith

theorem RemapProbaSel_le_one (v : ℚ) (h0 : 0 ≤ v) (h1 : v ≤ 1) :
    RemapProbaSel v ≤ 1 := by
  unfold RemapProbaSel
  split_ifs with h
  · nlinarith
  · nlinarith [sq_nonneg (1 - v)]

/-- C8: for draws `u1, u2, u3` in `[0,1)`, one iteration of the harness
leaves `mDist = 2000*u1^2` in `[0, 2000]`, `mVGFact = 0.5 + 2*u2` in
`[0.5, 2.5]` and `mProbaSel` (the clamped and remapped `u3`) in `[0, 1]`. -/
theorem OneTest_sampling_ranges (tk : Toolkit) (a : cAppliTestMartini) (aKIter : Int)
    (u1 u2 u3 : ℚ) (h1 : 0 ≤ u1 ∧ u1 < 1) (h2 : 0 ≤ u2 ∧ u2 < 1)
    (_h3 : 0 ≤ u3 ∧ u3 < 1) :
    ((a.OneTest tk aKIter u1 u2 u3).1.mDist = 2000 * u1 ^ 2
      ∧ 0 ≤ (a.OneTest tk aKIter u1 u2 u3).1.mDist
      ∧ (a.OneTest tk aKIter u1 u2 u3).1.mDist ≤ 2000)
    ∧ ((a.OneTest tk aKIter u1 u2 u3).1.mVGFact = 1 / 2 + 2 * u2
      ∧ 1 / 2 ≤ (a.OneTest tk aKIter u1 u2 u3).1.mVGFact
      ∧ (a.OneTest tk aKIter u1 u2 u3).1.mVGFact ≤ 5 / 2)
    ∧ ((a.OneTest tk aKIter u1 u2 u3).1.mProbaSel = RemapProbaSel (max 0 (min 1 u3))
      ∧ 0 ≤ (a.OneTest tk aKIter u1 u2 u3).1.mProbaSel
      ∧ (a.OneTest tk aKIter u1 u2 u3).1.mProbaSel ≤ 1) := by
  obtain ⟨h1a, h1b⟩ := h1
  obtain ⟨h2a, h2b⟩ := h2
  have hc0 : (0 : ℚ) ≤ max 0 (min 1 u3) := le_max_left _ _
  have hc1 : max 0 (min 1 u3) ≤ (1 : ℚ) := max_le (by norm_num) (min_le_left _ _)
  have hsq0 := ElSquare_nonneg u1
  have hsq1 := ElSquare_le_one u1 h1a h1b
  refine ⟨⟨?_, ?_, ?_⟩, ⟨?_, ?_, ?_⟩, ⟨?_, ?_, ?_⟩⟩
  · show 2000 * ElSquare u1 = 2000 * u1 ^ 2
    unfold ElSquare; ring
  · show 0 ≤ 2000 * ElSquare u1
    linarith
  · show 2000 * ElSquare u1 ≤ 2000
    linarith
  · rfl
  · show 1 / 2 ≤ 1 / 2 + 2 * u2
    linarith
  · show 1 / 2 + 2 * u2 ≤ 5 / 2
    linarith
  · rfl
  · exact RemapProbaSel_nonneg _ hc0 hc1
  · exact RemapProbaSel_le_one _ hc0 hc1

theorem OneTest_sampling_ranges_witness :
    (0 ≤ (1 / 4 : ℚ) ∧ (1 / 4 : ℚ) < 1)
    ∧ (scenarioSample.mDist = 2000 * (1 / 4 : ℚ) ^ 2
      ∧ 0 ≤ scenarioSample.mDist ∧ scenarioSample.mDist ≤ 2000)
    ∧ (scenarioSample.mVGFact = 1 / 2 + 2 * (1 / 4 : ℚ)
      ∧ 1 / 2 ≤ scenarioSample.mVGFact ∧ scenarioSample.mVGFact ≤ 5 / 2)
    ∧ (scenarioSample.mProbaSel = RemapProbaSel (max 0 (min 1 (1 / 4 : ℚ)))
      ∧ 0 ≤ scenarioSample.mProbaSel ∧ scenarioSample.mProbaSel ≤ 1) :=
  ⟨by norm_num,
   OneTest_sampling_ranges sampleToolkit (cAppliTestMartini.ctor scenarioTestArgs) 0
      (1 / 4) (1 / 4) (1 / 4) (by norm_num) (by norm_num) (by norm_num)⟩

/-- C9 (as the code has it): the remapping of `mProbaSel` sends 0 to 0 and
1 to 1, and sends the midpoint 0.5 to 0.75. -/
theorem RemapProbaSel_endpoints_and_midpoint :
    RemapProbaSel 0 = 0 ∧ RemapProbaSel 1 = 1 ∧ RemapProbaSel (1 / 2) = 3 / 4 := by
  refine ⟨?_, ?_, ?_⟩ <;> norm_num [RemapProbaSel]

/-- C9 (as stated) fails at the midpoint: 0.5 is not sent to 0.5. -/
theorem RemapProbaSel_midpoint_not_fixed : RemapProbaSel (1 / 2) ≠ 1 / 2 := by
  norm_num [RemapProbaSel]

/-- C10: the remapping of `mProbaSel` is monotone on `[0,1]`, also across
the change of branch at 0.5. -/
theorem RemapProbaSel_monotone (v w : ℚ) (h0 : 0 ≤ v) (hvw : v ≤ w) (h1 : w ≤ 1) :
    RemapProbaSel v ≤ RemapProbaSel w := by
  unfold RemapProbaSel
  split_ifs with hv hw hw
  · nlinarith
  · nlinarith
  · linarith
  · nlinarith

theorem RemapProbaSel_monotone_witness :
    ((0 : ℚ) ≤ 1 / 4 ∧ (1 / 4 : ℚ) ≤ 3 / 4 ∧ (3 / 4 : ℚ) ≤ 1)
    ∧ RemapProbaSel (1 / 4) ≤ RemapProbaSel (3 / 4) :=
  ⟨by norm_num,
   RemapProbaSel_monotone (1 / 4) (3 / 4) (by norm_num) (by norm_num) (by norm_num)⟩

/-! ## The harness: execution gating -/

/-- C7 (as the code has it): every iteration first logs the line
`RAAT <Ratafia command>`.  If `k < K0` it then spawns nothing, purges
nothing and logs `k Purge=[NewOriTmpTM<ext-hom><calib>Quick/]`; if
`k >= K0` it runs the Ratafia command, then the Martini command, then
purges exactly that subtree, and logs the same line.  With `OriCalib=C`
and `K0=2`, iterations 0 and 1 spawn and purge nothing and log
`Purge=[NewOriTmpTMTestMartiniCQuick/]`, and iteration 2 is the first to
execute. -/
theorem OneTest_gating (tk : Toolkit) :
    (∀ (a : cAppliTestMartini) (k : Int) (u1 u2 u3 : ℚ), k < a.mK0 →
        (a.OneTest tk k u1 u2 u3).2 =
          [Event.Cout ("RAAT " ++ (a.OneTest tk k u1 u2 u3).1.ComRat tk
              (SampleDist u1) (SampleVGFact u2) (SampleProbaSel u3) ++ "\n"),
           Event.Cout (ToStringInt k ++ " Purge=[" ++ ("NewOriTmpTM" ++ a.mExtHom
              ++ a.mNameOriCalib ++ "Quick/") ++ "]\n")]
        ∧ spawned (a.OneTest tk k u1 u2 u3).2 = []
        ∧ purged (a.OneTest tk k u1 u2 u3).2 = [])
    ∧ (∀ (a : cAppliTestMartini) (k : Int) (u1 u2 u3 : ℚ), a.mK0 ≤ k →
        (a.OneTest tk k u1 u2 u3).2 =
          [Event.Cout ("RAAT " ++ (a.OneTest tk k u1 u2 u3).1.ComRat tk
              (SampleDist u1) (SampleVGFact u2) (SampleProbaSel u3) ++ "\n"),
           Event.System ((a.OneTest tk k u1 u2 u3).1.ComRat tk
              (SampleDist u1) (SampleVGFact u2) (SampleProbaSel u3)),
           Event.System ((a.OneTest tk k u1 u2 u3).1.ComMartini tk),
           Event.PurgeDirRecursif ("NewOriTmpTM" ++ a.mExtHom
              ++ a.mNameOriCalib ++ "Quick/"),
           Event.Cout (ToStringInt k ++ " Purge=[" ++ ("NewOriTmpTM" ++ a.mExtHom
              ++ a.mNameOriCalib ++ "Quick/") ++ "]\n")])
    ∧ (∀ (aPat : String) (rand : Nat → ℚ),
        spawned (TestMartini_Main tk ⟨aPat, some "C", some 2⟩ rand 2) = []
        ∧ purged (TestMartini_Main tk ⟨aPat, some "C", some 2⟩ rand 2) = []
        ∧ (∃ r0 r1, logged (TestMartini_Main tk ⟨aPat, some "C", some 2⟩ rand 2) =
            [r0, "0 Purge=[NewOriTmpTMTestMartiniCQuick/]\n",
             r1, "1 Purge=[NewOriTmpTMTestMartiniCQuick/]\n"])
        ∧ (∃ c1 c2, spawned (TestMartini_Main tk ⟨aPat, some "C", some 2⟩ rand 3) =
            [c1, c2])
        ∧ purged (TestMartini_Main tk ⟨aPat, some "C", some 2⟩ rand 3) =
            ["NewOriTmpTMTestMartiniCQuick/"]) := by
  refine ⟨?_, ?_, ?_⟩
  · intro a k u1 u2 u3 hk
    have hk' : ¬ (k ≥ a.mK0) := not_le.mpr hk
    simp [cAppliTestMartini.OneTest, cAppliTestMartini.DirPurge, PurgeLine, hk',
      spawned, purged]
  · intro a k u1 u2 u3 hk
    have hk' : k ≥ a.mK0 := hk
    simp [cAppliTestMartini.OneTest, cAppliTestMartini.DirPurge, PurgeLine, hk']
  · intro aPat rand
    refine ⟨?_, ?_, ?_, ?_, ?_⟩ <;>
      simp [TestMartini_Main, TestMartini_Loop, cAppliTestMartini.OneTest,
        cAppliTestMartini.ctor, cAppliTestMartini.DirPurge, PurgeLine, ToStringInt,
        spawned, purged, logged]
    decide

/-- C7 (as stated) fails: an iteration below `K0` writes two lines, the
`RAAT` line and the purge line, not the purge line only. -/
theorem OneTest_below_K0_logs_two_lines :
    (0 : Int) < (cAppliTestMartini.ctor scenarioTestArgs).mK0
    ∧ logged ((cAppliTestMartini.ctor scenarioTestArgs).OneTest sampleToolkit 0 0 0 0).2
        = ["RAAT mm3d Ratafia IMG.*JPG Out=TestMartini DistPMul=R MVG=R OriCalib=C ProbaSel=R\n",
           "0 Purge=[NewOriTmpTMTestMartiniCQuick/]\n"]
    ∧ logged ((cAppliTestMartini.ctor scenarioTestArgs).OneTest sampleToolkit 0 0 0 0).2
        ≠ ["0 Purge=[NewOriTmpTMTestMartiniCQuick/]\n"] := by
  decide

theorem OneTest_gating_witness :
    (0 : Int) < (cAppliTestMartini.ctor scenarioTestArgs).mK0
    ∧ spawned ((cAppliTestMartini.ctor scenarioTestArgs).OneTest sampleToolkit 0 0 0 0).2 = []
    ∧ purged ((cAppliTestMartini.ctor scenarioTestArgs).OneTest sampleToolkit 0 0 0 0).2 = [] :=
  ⟨by decide,
   ((OneTest_gating sampleToolkit).1 (cAppliTestMartini.ctor scenarioTestArgs) 0 0 0 0
      (by decide)).2⟩

/-! ## The driver: construction and command composition -/

theorem ctor_fields (tk : Toolkit) (args : Args) (Quick : Bool) (a : cAppli_Martini)
    (prep : List Event) (h : cAppli_Martini.ctor tk args Quick = some (a, prep)) :
    a.mPat = args.Pat ∧ a.mExe = args.Exe.getD true ∧ a.mQuick = Quick
    ∧ a.mPrefHom = args.SH.getD "" ∧ a.mExtName = args.ExtName.getD ""
    ∧ a.mNameModeNO = args.ModeNO.getD "Std"
    ∧ a.mNameOriCalibIsInit = args.OriCalib.isSome
    ∧ tk.StdCorrecNameOrient (args.OriCalib.getD "") (tk.DirOfPat args.Pat)
        = some a.mNameOriCalib
    ∧ tk.Str2eTypeModeNO ("eModeNO_" ++ args.ModeNO.getD "Std") = some a.mModeNO := by
  unfold cAppli_Martini.ctor ToTypeNO TheStdModeNewOri at h
  simp only at h
  split at h
  · exact absurd h (by simp)
  · rename_i m hm
    split at h
    · exact absurd h (by simp)
    · rename_i nm hn
      simp only [Option.some.injEq, Prod.mk.injEq] at h
      obtain ⟨rfl, -⟩ := h
      exact ⟨rfl, rfl, rfl, rfl, rfl, rfl, rfl, hn, hm⟩

theorem commands_DoAll (tk : Toolkit) (a : cAppli_Martini) :
    commands (a.DoAll tk) =
      [a.FullCom tk "NO_AllOri2Im" "", a.FullCom tk "NO_AllImTriplet" "",
       a.FullCom tk "NO_GenTripl" " Show=false", a.FullCom tk "NO_AllImOptTrip" "",
       a.FullCom tk "NO_SolInit3" ""] := by
  cases h : a.mExe <;>
    simp [cAppli_Martini.DoAll, cAppli_Martini.StdCom, commands, h]

theorem FullCom_eq_SpecCommand (tk : Toolkit) (a : cAppli_Martini) (aCom aPost : String) :
    a.FullCom tk aCom aPost =
      SpecCommand (tk.MM3dBinFile_quotes "TestLib ") aCom a.mPat
        (if a.mNameOriCalibIsInit then some a.mNameOriCalib else none) a.mQuick aPost
        a.mPrefHom a.mExtName a.mNameModeNO := by
  unfold cAppli_Martini.FullCom SpecCommand QUOTE ToStringBool
  cases a.mNameOriCalibIsInit <;> cases a.mQuick <;>
    simp [String.append_assoc] <;> rfl

theorem infix_append_cons_iff {α : Type} (n a r : List α) (d : α) (hd : d ∉ n.tail) :
    n <:+: a ++ d :: r ↔ n <:+: a ∨ n <:+: d :: r := by
  constructor
  · intro h
    induction a with
    | nil => right; simpa using h
    | cons x a ih =>
      rw [List.cons_append, List.infix_cons_iff] at h
      rcases h with h | h
      · have h1 : n <+: (x :: a) ++ (d :: r) := h
        by_cases hlen : n.length ≤ (x :: a).length
        · left
          exact (List.prefix_of_prefix_length_le h1 (List.prefix_append _ _) hlen).isInfix
        · exfalso
          apply hd
          obtain ⟨s, hs⟩ :=
            List.prefix_of_prefix_length_le (List.prefix_append _ _) h1 (by omega)
          obtain ⟨t, ht⟩ := h1
          subst hs
          cases s with
          | nil => simp at hlen
          | cons y s =>
            rw [List.append_assoc] at ht
            have h4 := List.append_cancel_left ht
            simp only [List.cons_append, List.cons.injEq] at h4
            simp [h4.1]
      · rcases ih h with h | h
        · left; exact List.infix_cons h
        · right; exact h
  · rintro (h | h)
    · exact h.trans (List.prefix_append a _).isInfix
    · exact h.trans (List.suffix_append _ _).isInfix

theorem FullCom_data (tk : Toolkit) (a : cAppli_Martini) (aCom aPost : String) :
    (a.FullCom tk aCom aPost).data =
      (tk.MM3dBinFile_quotes "TestLib ").data ++ (aCom.data ++ ([' ', '"'] ++ (a.mPat.data
        ++ (['"'] ++ ((if a.mNameOriCalibIsInit then
              [' ', 'O', 'r', 'i', 'C', 'a', 'l', 'i', 'b', '='] ++ a.mNameOriCalib.data
              else [])
        ++ ([' ', 'Q', 'u', 'i', 'c', 'k', '=', if a.mQuick then '1' else '0']
        ++ (aPost.data
        ++ ([' ', 'P', 'r', 'e', 'f', 'H', 'o', 'm', '='] ++ (a.mPrefHom.data
        ++ ([' ', 'E', 'x', 't', 'N', 'a', 'm', 'e', '='] ++ (a.mExtName.data
        ++ ([' ', 'M', 'o', 'd', 'e', 'N', 'O', '='] ++ a.mNameModeNO.data)))))))))))) := by
  have e1 : " ".data = [' '] := rfl
  have e2 : "\"".data = ['"'] := rfl
  have e3 : " OriCalib=".data = [' ', 'O', 'r', 'i', 'C', 'a', 'l', 'i', 'b', '='] := rfl
  have e4 : " Quick=".data = [' ', 'Q', 'u', 'i', 'c', 'k', '='] := rfl
  have e5 : " PrefHom=".data = [' ', 'P', 'r', 'e', 'f', 'H', 'o', 'm', '='] := rfl
  have e6 : " ExtName=".data = [' ', 'E', 'x', 't', 'N', 'a', 'm', 'e', '='] := rfl
  have e7 : " ModeNO=".data = [' ', 'M', 'o', 'd', 'e', 'N', 'O', '='] := rfl
  have e8 : "1".data = ['1'] := rfl
  have e9 : "0".data = ['0'] := rfl
  unfold cAppli_Martini.FullCom QUOTE ToStringBool
  cases a.mNameOriCalibIsInit <;> cases a.mQuick <;>
    simp [String.data_append, e1, e2, e3, e4, e5, e6, e7, e8, e9]

theorem stage_data :
    "NO_AllOri2Im".data = ['N', 'O', '_', 'A', 'l', 'l', 'O', 'r', 'i', '2', 'I', 'm']
    ∧ "NO_AllImTriplet".data =
        ['N', 'O', '_', 'A', 'l', 'l', 'I', 'm', 'T', 'r', 'i', 'p', 'l', 'e', 't']
    ∧ "NO_GenTripl".data = ['N', 'O', '_', 'G', 'e', 'n', 'T', 'r', 'i', 'p', 'l']
    ∧ "NO_AllImOptTrip".data =
        ['N', 'O', '_', 'A', 'l', 'l', 'I', 'm', 'O', 'p', 't', 'T', 'r', 'i', 'p']
    ∧ "NO_SolInit3".data = ['N', 'O', '_', 'S', 'o', 'l', 'I', 'n', 'i', 't', '3'] :=
  ⟨rfl, rfl, rfl, rfl, rfl⟩

theorem Frag_trans {a b c : String} (h1 : Frag a b) (h2 : Frag b c) : Frag a c :=
  List.IsInfix.trans h1 h2

theorem Frag_append_left (s t : String) : Frag s (s ++ t) := by
  unfold Frag; rw [String.data_append]; exact (List.prefix_append _ _).isInfix

theorem Frag_append_right (s t : String) : Frag s (t ++ s) := by
  unfold Frag; rw [String.data_append]; exact (List.suffix_append _ _).isInfix

theorem Frag_of_left {f s : String} (t : String) (h : Frag f s) : Frag f (s ++ t) :=
  Frag_trans h (Frag_append_left s t)

theorem Frag_append_mid (x f y : String) : Frag (f ++ y) (x ++ f ++ y) := by
  rw [String.append_assoc]; exact Frag_append_right _ _

theorem EndsWith_of_right {s t : String} (u : String) (h : EndsWith s t) :
    EndsWith (u ++ s) t := by
  unfold EndsWith at *; rw [String.data_append]
  exact h.trans (List.suffix_append _ _)

/-- The fragments every command of `StdCom` carries. -/
theorem FullCom_fragments (tk : Toolkit) (a : cAppli_Martini) (aCom aPost : String) :
    StartsWith (a.FullCom tk aCom aPost)
        (tk.MM3dBinFile_quotes "TestLib " ++ aCom ++ " " ++ QUOTE a.mPat)
    ∧ (a.mNameOriCalibIsInit = true →
        Frag (" OriCalib=" ++ a.mNameOriCalib) (a.FullCom tk aCom aPost))
    ∧ Frag (" Quick=" ++ ToStringBool a.mQuick) (a.FullCom tk aCom aPost)
    ∧ Frag aPost (a.FullCom tk aCom aPost)
    ∧ Frag (" PrefHom=" ++ a.mPrefHom) (a.FullCom tk aCom aPost)
    ∧ Frag (" ExtName=" ++ a.mExtName) (a.FullCom tk aCom aPost)
    ∧ Frag (" ModeNO=" ++ a.mNameModeNO) (a.FullCom tk aCom aPost)
    ∧ EndsWith (a.FullCom tk aCom aPost)
        (" PrefHom=" ++ a.mPrefHom ++ " ExtName=" ++ a.mExtName
          ++ " ModeNO=" ++ a.mNameModeNO) := by
  refine ⟨?_, ?_, ?_, ?_, ?_, ?_, ?_, ?_⟩
  · unfold StartsWith cAppli_Martini.FullCom
    cases a.mNameOriCalibIsInit <;>
      simp only [String.data_append, List.append_assoc, Bool.false_eq_true, if_false, if_true] <;>
      simp
  · intro h
    unfold cAppli_Martini.FullCom
    simp only [h, if_true]
    exact Frag_of_left _ (Frag_of_left _ (Frag_of_left _ (Frag_of_left _ (Frag_of_left _
      (Frag_of_left _ (Frag_of_left _ (Frag_of_left _ (Frag_append_mid _ _ _))))))))
  · exact Frag_of_left _ (Frag_of_left _ (Frag_of_left _ (Frag_of_left _ (Frag_of_left _
      (Frag_of_left _ (Frag_of_left _ (Frag_append_right _ _)))))))
  · exact Frag_of_left _ (Frag_of_left _ (Frag_of_left _ (Frag_of_left _ (Frag_of_left _
      (Frag_of_left _ (Frag_append_right _ _))))))
  · exact Frag_of_left _ (Frag_of_left _ (Frag_of_left _ (Frag_of_left _
      (Frag_append_mid _ _ _))))
  · exact Frag_of_left _ (Frag_of_left _ (Frag_append_mid _ _ _))
  · exact Frag_append_mid _ _ _
  · unfold cAppli_Martini.FullCom
    simp only [String.append_assoc]
    exact EndsWith_of_right _ (EndsWith_of_right _ (EndsWith_of_right _
      (EndsWith_of_right _ (List.suffix_refl _))))

theorem FullCom_common (tk : Toolkit) (a : cAppli_Martini) (aCom aPost : String) :
    StartsWith (a.FullCom tk aCom aPost) (tk.MM3dBinFile_quotes "TestLib " ++ aCom ++ " ")
    ∧ (Frag "Quick=0" (a.FullCom tk aCom aPost) ∨ Frag "Quick=1" (a.FullCom tk aCom aPost))
    ∧ Frag "PrefHom=" (a.FullCom tk aCom aPost)
    ∧ Frag "ExtName=" (a.FullCom tk aCom aPost)
    ∧ Frag "ModeNO=" (a.FullCom tk aCom aPost) := by
  obtain ⟨h1, -, h3, -, h5, h6, h7, -⟩ := FullCom_fragments tk a aCom aPost
  refine ⟨?_, ?_, ?_, ?_, ?_⟩
  · unfold StartsWith at *
    refine List.IsPrefix.trans ?_ h1
    rw [String.data_append _ (QUOTE a.mPat)]
    exact List.prefix_append _ _
  · cases hq : a.mQuick
    · left
      rw [hq] at h3
      exact Frag_trans (by decide) h3
    · right
      rw [hq] at h3
      exact Frag_trans (by decide) h3
  · exact Frag_trans (Frag_of_left _ (by decide)) h5
  · exact Frag_trans (Frag_of_left _ (by decide)) h6
  · exact Frag_trans (Frag_of_left _ (by decide)) h7

theorem printed_DoAll (tk : Toolkit) (a : cAppli_Martini) (h : a.mExe = false) :
    spawned (a.DoAll tk) = []
    ∧ printed (a.DoAll tk) =
      [a.FullCom tk "NO_AllOri2Im" "", a.FullCom tk "NO_AllImTriplet" "",
       a.FullCom tk "NO_GenTripl" " Show=false", a.FullCom tk "NO_AllImOptTrip" "",
       a.FullCom tk "NO_SolInit3" ""] := by
  simp [cAppli_Martini.DoAll, cAppli_Martini.StdCom, printed, spawned, h]

/-- C1: with the execute flag false, `DoAll` spawns no child process and
prints exactly five commands, for the stages `NO_AllOri2Im`,
`NO_AllImTriplet`, `NO_GenTripl`, `NO_AllImOptTrip`, `NO_SolInit3` in this
order; each contains `Quick=0` or `Quick=1`, `PrefHom=`, `ExtName=` and
`ModeNO=`. -/
theorem DoAll_print_only (tk : Toolkit) (args : Args) (Quick : Bool)
    (a : cAppli_Martini) (prep : List Event)
    (hctor : cAppli_Martini.ctor tk args Quick = some (a, prep))
    (hexe : args.Exe = some false) :
    spawned (a.DoAll tk) = []
    ∧ (printed (a.DoAll tk)).length = 5
    ∧ List.Forall₂
        (fun aStage c =>
          StartsWith c (tk.MM3dBinFile_quotes "TestLib " ++ aStage ++ " ")
          ∧ (Frag "Quick=0" c ∨ Frag "Quick=1" c)
          ∧ Frag "PrefHom=" c ∧ Frag "ExtName=" c ∧ Frag "ModeNO=" c)
        stageNames (printed (a.DoAll tk)) := by
  have hf := ctor_fields tk args Quick a prep hctor
  have he : a.mExe = false := by rw [hf.2.1, hexe]; rfl
  obtain ⟨hs, hp⟩ := printed_DoAll tk a he
  refine ⟨hs, by rw [hp]; rfl, ?_⟩
  rw [hp]
  unfold stageNames
  exact List.Forall₂.cons (FullCom_common tk a _ _) (List.Forall₂.cons (FullCom_common tk a _ _)
    (List.Forall₂.cons (FullCom_common tk a _ _) (List.Forall₂.cons (FullCom_common tk a _ _)
    (List.Forall₂.cons (FullCom_common tk a _ _) List.Forall₂.nil))))

theorem DoAll_print_only_witness :
    cAppli_Martini.ctor sampleToolkit scenarioPrintArgs true = some (scenarioPrintAppli, [])
    ∧ spawned (scenarioPrintAppli.DoAll sampleToolkit) = []
    ∧ (printed (scenarioPrintAppli.DoAll sampleToolkit)).length = 5
    ∧ List.Forall₂
        (fun aStage c =>
          StartsWith c (sampleToolkit.MM3dBinFile_quotes "TestLib " ++ aStage ++ " ")
          ∧ (Frag "Quick=0" c ∨ Frag "Quick=1" c)
          ∧ Frag "PrefHom=" c ∧ Frag "ExtName=" c ∧ Frag "ModeNO=" c)
        stageNames (printed (scenarioPrintAppli.DoAll sampleToolkit)) :=
  ⟨by decide,
   DoAll_print_only sampleToolkit scenarioPrintArgs true scenarioPrintAppli []
     (by decide) (by decide)⟩

theorem commands_append (l₁ l₂ : List Event) :
    commands (l₁ ++ l₂) = commands l₁ ++ commands l₂ := by
  induction l₁ with
  | nil => rfl
  | cons e l ih => cases e <;> simp [commands, ih]

theorem commands_NewO_OneIm (l : List String) :
    commands (l.map Event.NewO_OneIm) = [] := by
  induction l with
  | nil => rfl
  | cons x l ih => simpa [commands] using ih

theorem commands_Banniere (Quick : Bool) : commands (Banniere Quick) = [] := by
  cases Quick <;> rfl

theorem ctor_of_lookups (tk : Toolkit) (args : Args) (Quick : Bool) (aMode : Nat)
    (aName : String)
    (hm : tk.Str2eTypeModeNO ("eModeNO_" ++ args.ModeNO.getD "Std") = some aMode)
    (hn : tk.StdCorrecNameOrient (args.OriCalib.getD "") (tk.DirOfPat args.Pat)
      = some aName) :
    cAppli_Martini.ctor tk args Quick =
      some (cAppli_Martini.mk aName args.OriCalib.isSome args.Pat (args.Exe.getD true)
              Quick (args.SH.getD "") (args.ExtName.getD "") (args.ModeNO.getD "Std") aMode,
            (tk.SetIm args.Pat).map Event.NewO_OneIm) := by
  unfold cAppli_Martini.ctor ToTypeNO TheStdModeNewOri
  simp only [hm, hn]

/-- The commands of a whole run of an entry point whose toolkit lookups
succeed outside visual mode. -/
theorem commands_CPP_Gene_Martini_main (tk : Toolkit) (args : Args) (Quick : Bool)
    (aMode : Nat) (aName : String)
    (hv : tk.MMVisualMode = false)
    (hm : tk.Str2eTypeModeNO ("eModeNO_" ++ args.ModeNO.getD "Std") = some aMode)
    (hn : tk.StdCorrecNameOrient (args.OriCalib.getD "") (tk.DirOfPat args.Pat)
      = some aName) :
    (CPP_Gene_Martini_main tk args Quick).1 = some 0
    ∧ commands (CPP_Gene_Martini_main tk args Quick).2 = specStages.map (fun sp =>
        SpecCommand (tk.MM3dBinFile_quotes "TestLib ") sp.1 args.Pat
          (if args.OriCalib.isSome then some aName else none) Quick sp.2
          (args.SH.getD "") (args.ExtName.getD "") (args.ModeNO.getD "Std")) := by
  have hc := ctor_of_lookups tk args Quick aMode aName hm hn
  unfold CPP_Gene_Martini_main
  rw [hc]
  simp only [hv, Bool.false_eq_true, if_false]
  refine ⟨rfl, ?_⟩
  rw [commands_append, commands_append, commands_NewO_OneIm, commands_Banniere,
    commands_DoAll]
  simp only [specStages, List.map, FullCom_eq_SpecCommand, List.nil_append, List.append_nil]

/-- C2: for every run configuration and each of the five stages, the
command composed by `StdCom` is the toolkit `TestLib` prefix, the stage
name, a space, the quoted pattern, ` OriCalib=<name>` only when a
calibration name was supplied, ` Quick=1` for the Martini entry point or
` Quick=0` for the MartiniGin entry point, the per-stage suffix, and
` PrefHom=<prefix> ExtName=<suffix> ModeNO=<mode>`; these are the five
commands a run of `CPP_Martini_main`, respectively `CPP_MartiniGin_main`,
emits.  With no optional argument the first command of Martini is
`<toolkit TestLib prefix>NO_AllOri2Im "IMG.*JPG" Quick=1 PrefHom= ExtName= ModeNO=Std`,
and with `SH=H ExtName=E` every command ends with
`PrefHom=H ExtName=E ModeNO=Std`. -/
theorem StdCom_command_shape (tk : Toolkit) :
    (∀ (a : cAppli_Martini) (aCom aPost : String),
        a.StdCom tk aCom aPost =
          [if a.mExe then Event.System (a.FullCom tk aCom aPost)
             else Event.CoutCom (a.FullCom tk aCom aPost), Event.CoutDone aCom]
        ∧ a.FullCom tk aCom aPost =
          SpecCommand (tk.MM3dBinFile_quotes "TestLib ") aCom a.mPat
            (if a.mNameOriCalibIsInit then some a.mNameOriCalib else none) a.mQuick aPost
            a.mPrefHom a.mExtName a.mNameModeNO)
    ∧ (∀ (args : Args) (Quick : Bool) (a : cAppli_Martini) (prep : List Event),
        cAppli_Martini.ctor tk args Quick = some (a, prep) →
        commands (a.DoAll tk) = specStages.map (fun sp =>
          SpecCommand (tk.MM3dBinFile_quotes "TestLib ") sp.1 args.Pat
            (if args.OriCalib.isSome then some a.mNameOriCalib else none) Quick sp.2
            (args.SH.getD "") (args.ExtName.getD "") (args.ModeNO.getD "Std")))
    ∧ (∀ args : Args, CPP_Martini_main tk args = CPP_Gene_Martini_main tk args true
        ∧ CPP_MartiniGin_main tk args = CPP_Gene_Martini_main tk args false)
    ∧ (∀ (exe : Option Bool) (a : cAppli_Martini) (prep : List Event),
        cAppli_Martini.ctor tk ⟨"IMG.*JPG", none, exe, none, none, none⟩ true
          = some (a, prep) →
        (commands (a.DoAll tk)).head? = some (tk.MM3dBinFile_quotes "TestLib "
          ++ "NO_AllOri2Im \"IMG.*JPG\" Quick=1 PrefHom= ExtName= ModeNO=Std"))
    ∧ (∀ (aPat : String) (aCalib : Option String) (exe : Option Bool) (Quick : Bool)
        (a : cAppli_Martini) (prep : List Event),
        cAppli_Martini.ctor tk ⟨aPat, aCalib, exe, some "H", some "E", none⟩ Quick
          = some (a, prep) →
        (commands (a.DoAll tk)).length = 5
        ∧ ∀ c ∈ commands (a.DoAll tk), EndsWith c "PrefHom=H ExtName=E ModeNO=Std")
    ∧ (∀ (args : Args) (aMode : Nat) (aName : String),
        tk.MMVisualMode = false →
        tk.Str2eTypeModeNO ("eModeNO_" ++ args.ModeNO.getD "Std") = some aMode →
        tk.StdCorrecNameOrient (args.OriCalib.getD "") (tk.DirOfPat args.Pat)
          = some aName →
        (commands (CPP_Martini_main tk args).2 = specStages.map (fun sp =>
            SpecCommand (tk.MM3dBinFile_quotes "TestLib ") sp.1 args.Pat
              (if args.OriCalib.isSome then some aName else none) true sp.2
              (args.SH.getD "") (args.ExtName.getD "") (args.ModeNO.getD "Std"))
          ∧ ∀ c ∈ commands (CPP_Martini_main tk args).2, Frag " Quick=1" c)
        ∧ (commands (CPP_MartiniGin_main tk args).2 = specStages.map (fun sp =>
            SpecCommand (tk.MM3dBinFile_quotes "TestLib ") sp.1 args.Pat
              (if args.OriCalib.isSome then some aName else none) false sp.2
              (args.SH.getD "") (args.ExtName.getD "") (args.ModeNO.getD "Std"))
          ∧ ∀ c ∈ commands (CPP_MartiniGin_main tk args).2, Frag " Quick=0" c))
    ∧ (∀ (exe : Option Bool) (aMode : Nat) (aName : String),
        tk.MMVisualMode = false →
        tk.Str2eTypeModeNO "eModeNO_Std" = some aMode →
        tk.StdCorrecNameOrient "" (tk.DirOfPat "IMG.*JPG") = some aName →
        (commands (CPP_Martini_main tk ⟨"IMG.*JPG", none, exe, none, none, none⟩).2).head?
          = some (tk.MM3dBinFile_quotes "TestLib "
              ++ "NO_AllOri2Im \"IMG.*JPG\" Quick=1 PrefHom= ExtName= ModeNO=Std")
        ∧ (commands (CPP_MartiniGin_main tk ⟨"IMG.*JPG", none, exe, none, none, none⟩).2).head?
          = some (tk.MM3dBinFile_quotes "TestLib "
              ++ "NO_AllOri2Im \"IMG.*JPG\" Quick=0 PrefHom= ExtName= ModeNO=Std")) := by
  have hquick : ∀ (a : cAppli_Martini), ∀ c ∈ commands (a.DoAll tk),
      Frag (" Quick=" ++ ToStringBool a.mQuick) c := by
    intro a c hc
    rw [commands_DoAll] at hc
    simp only [List.mem_cons, List.mem_singleton, List.not_mem_nil, or_false] at hc
    rcases hc with rfl | rfl | rfl | rfl | rfl <;>
      exact (FullCom_fragments tk a _ _).2.2.1
  have hq1 : " Quick=" ++ ToStringBool true = " Quick=1" := by decide
  have hq0 : " Quick=" ++ ToStringBool false = " Quick=0" := by decide
  have hrun : ∀ (args : Args) (Quick : Bool) (aMode : Nat) (aName : String),
      tk.MMVisualMode = false →
      tk.Str2eTypeModeNO ("eModeNO_" ++ args.ModeNO.getD "Std") = some aMode →
      tk.StdCorrecNameOrient (args.OriCalib.getD "") (tk.DirOfPat args.Pat) = some aName →
      commands (CPP_Gene_Martini_main tk args Quick).2 =
        commands ((cAppli_Martini.mk aName args.OriCalib.isSome args.Pat
          (args.Exe.getD true) Quick (args.SH.getD "") (args.ExtName.getD "")
          (args.ModeNO.getD "Std") aMode).DoAll tk) := by
    intro args Quick aMode aName hv hm hn
    have hc := ctor_of_lookups tk args Quick aMode aName hm hn
    unfold CPP_Gene_Martini_main
    rw [hc]
    simp only [hv, Bool.false_eq_true, if_false]
    rw [commands_append, commands_append, commands_NewO_OneIm, commands_Banniere,
      List.nil_append, List.append_nil]
  refine ⟨?_, ?_, ?_, ?_, ?_, ?_, ?_⟩
  · intro a aCom aPost
    exact ⟨rfl, FullCom_eq_SpecCommand tk a aCom aPost⟩
  · intro args Quick a prep h
    obtain ⟨h1, -, h3, h4, h5, h6, h7, -, -⟩ := ctor_fields tk args Quick a prep h
    rw [commands_DoAll]
    simp only [specStages, List.map, FullCom_eq_SpecCommand, h1, h3, h4, h5, h6, h7]
  · intro args
    exact ⟨rfl, rfl⟩
  · intro exe a prep h
    obtain ⟨h1, -, h3, h4, h5, h6, h7, -, -⟩ := ctor_fields tk _ _ a prep h
    rw [commands_DoAll]
    simp only [List.head?, FullCom_eq_SpecCommand, h1, h3, h4, h5, h6, h7]
    simp [SpecCommand, String.append_assoc]
  · intro aPat aCalib exe Quick a prep h
    obtain ⟨h1, -, h3, h4, h5, h6, h7, -, -⟩ := ctor_fields tk _ _ a prep h
    rw [commands_DoAll]
    refine ⟨rfl, ?_⟩
    intro c hc
    have key : ∀ aCom aPost, EndsWith (a.FullCom tk aCom aPost)
        "PrefHom=H ExtName=E ModeNO=Std" := by
      intro aCom aPost
      have h8 := (FullCom_fragments tk a aCom aPost).2.2.2.2.2.2.2
      rw [h4, h5, h6] at h8
      have h9 : EndsWith (a.FullCom tk aCom aPost)
          (" PrefHom=" ++ "H" ++ " ExtName=" ++ "E" ++ " ModeNO=" ++ "Std") := h8
      have h10 : EndsWith (" PrefHom=" ++ "H" ++ " ExtName=" ++ "E" ++ " ModeNO=" ++ "Std")
          "PrefHom=H ExtName=E ModeNO=Std" := by
        unfold EndsWith; decide
      exact List.IsSuffix.trans h10 h9
    simp only [List.mem_cons, List.mem_singleton, List.not_mem_nil, or_false] at hc
    rcases hc with rfl | rfl | rfl | rfl | rfl <;> exact key _ _
  · intro args aMode aName hv hm hn
    refine ⟨⟨(commands_CPP_Gene_Martini_main tk args true aMode aName hv hm hn).2, ?_⟩,
      ⟨(commands_CPP_Gene_Martini_main tk args false aMode aName hv hm hn).2, ?_⟩⟩
    · intro c hc
      have hc' : c ∈ commands (CPP_Gene_Martini_main tk args true).2 := hc
      rw [hrun args true aMode aName hv hm hn] at hc'
      have h3 := hquick _ c hc'
      rw [← hq1]
      exact h3
    · intro c hc
      have hc' : c ∈ commands (CPP_Gene_Martini_main tk args false).2 := hc
      rw [hrun args false aMode aName hv hm hn] at hc'
      have h3 := hquick _ c hc'
      rw [← hq0]
      exact h3
  · intro exe aMode aName hv hm hn
    have h1 := (commands_CPP_Gene_Martini_main tk ⟨"IMG.*JPG", none, exe, none, none, none⟩
      true aMode aName hv hm hn).2
    have h2 := (commands_CPP_Gene_Martini_main tk ⟨"IMG.*JPG", none, exe, none, none, none⟩
      false aMode aName hv hm hn).2
    constructor
    · show (commands (CPP_Gene_Martini_main tk _ true).2).head? = _
      rw [h1]
      simp [specStages, SpecCommand, String.append_assoc]
    · show (commands (CPP_Gene_Martini_main tk _ false).2).head? = _
      rw [h2]
      simp [specStages, SpecCommand, String.append_assoc]

theorem StdCom_command_shape_witness :
    (sampleToolkit.MMVisualMode = false
      ∧ sampleToolkit.Str2eTypeModeNO ("eModeNO_" ++ scenarioPlainArgs.ModeNO.getD "Std")
          = some 0
      ∧ sampleToolkit.StdCorrecNameOrient (scenarioPlainArgs.OriCalib.getD "")
          (sampleToolkit.DirOfPat scenarioPlainArgs.Pat) = some "")
    ∧ (commands (CPP_Martini_main sampleToolkit scenarioPlainArgs).2 =
          specStages.map (fun sp =>
            SpecCommand (sampleToolkit.MM3dBinFile_quotes "TestLib ") sp.1
              scenarioPlainArgs.Pat
              (if scenarioPlainArgs.OriCalib.isSome then some "" else none) true sp.2
              (scenarioPlainArgs.SH.getD "") (scenarioPlainArgs.ExtName.getD "")
              (scenarioPlainArgs.ModeNO.getD "Std"))
        ∧ ∀ c ∈ commands (CPP_Martini_main sampleToolkit scenarioPlainArgs).2,
            Frag " Quick=1" c)
    ∧ (commands (CPP_MartiniGin_main sampleToolkit scenarioPlainArgs).2 =
          specStages.map (fun sp =>
            SpecCommand (sampleToolkit.MM3dBinFile_quotes "TestLib ") sp.1
              scenarioPlainArgs.Pat
              (if scenarioPlainArgs.OriCalib.isSome then some "" else none) false sp.2
              (scenarioPlainArgs.SH.getD "") (scenarioPlainArgs.ExtName.getD "")
              (scenarioPlainArgs.ModeNO.getD "Std"))
        ∧ ∀ c ∈ commands (CPP_MartiniGin_main sampleToolkit scenarioPlainArgs).2,
            Frag " Quick=0" c) :=
  ⟨by decide,
   (StdCom_command_shape sampleToolkit).2.2.2.2.2.1 scenarioPlainArgs 0 ""
     (by decide) (by decide) (by decide)⟩

/-! ## The driver: fragments that must be absent -/

theorem FullCom_noShow (tk : Toolkit) (a : cAppli_Martini) (aCom : String)
    (hA : aCom = "NO_AllOri2Im" ∨ aCom = "NO_AllImTriplet" ∨ aCom = "NO_AllImOptTrip"
      ∨ aCom = "NO_SolInit3")
    (hP : ¬ Frag " Show=false" (tk.MM3dBinFile_quotes "TestLib "))
    (hpat : ¬ Frag " Show=false" a.mPat)
    (hname : a.mNameOriCalibIsInit = true → ¬ Frag " Show=false" a.mNameOriCalib)
    (hph : ¬ Frag " Show=false" a.mPrefHom)
    (hen : ¬ Frag " Show=false" a.mExtName)
    (hmode : ¬ Frag " Show=false" a.mNameModeNO) :
    ¬ Frag " Show=false" (a.FullCom tk aCom "") := by
  have en : " Show=false".data = [' ', 'S', 'h', 'o', 'w', '=', 'f', 'a', 'l', 's', 'e'] := rfl
  have e0 : "".data = [] := rfl
  unfold Frag at *
  rw [FullCom_data, e0]
  rw [en] at hP hpat hname hph hen hmode ⊢
  obtain ⟨name, init, pat, exe, quick, ph, en, mode, m⟩ := a
  simp only at hpat hname hph hen hmode ⊢
  rcases hA with h | h | h | h <;> subst h <;> cases init <;> cases quick <;>
    simp +decide [stage_data, infix_append_cons_iff, List.infix_cons_iff, hP, hpat,
      hph, hen, hmode] at hname ⊢ <;> exact hname

theorem FullCom_noOriCalib (tk : Toolkit) (a : cAppli_Martini) (aCom aPost : String)
    (hA : (aCom, aPost) ∈ specStages)
    (hinit : a.mNameOriCalibIsInit = false)
    (hP : ¬ Frag "OriCalib=" (tk.MM3dBinFile_quotes "TestLib "))
    (hpat : ¬ Frag "OriCalib=" a.mPat)
    (hph : ¬ Frag "OriCalib=" a.mPrefHom)
    (hen : ¬ Frag "OriCalib=" a.mExtName)
    (hmode : ¬ Frag "OriCalib=" a.mNameModeNO) :
    ¬ Frag "OriCalib=" (a.FullCom tk aCom aPost) := by
  have en : "OriCalib=".data = ['O', 'r', 'i', 'C', 'a', 'l', 'i', 'b', '='] := rfl
  have e0 : "".data = [] := rfl
  have e1 : " Show=false".data = [' ', 'S', 'h', 'o', 'w', '=', 'f', 'a', 'l', 's', 'e'] := rfl
  unfold Frag at *
  rw [FullCom_data]
  rw [en] at hP hpat hph hen hmode ⊢
  obtain ⟨name, init, pat, exe, quick, ph, en, mode, m⟩ := a
  simp only at hpat hph hen hmode hinit ⊢
  subst hinit
  simp only [specStages, List.mem_cons, Prod.mk.injEq, List.mem_singleton, List.not_mem_nil,
    or_false] at hA
  rcases hA with ⟨h, h'⟩ | ⟨h, h'⟩ | ⟨h, h'⟩ | ⟨h, h'⟩ | ⟨h, h'⟩ <;> subst h <;> subst h' <;>
    cases quick <;>
    simp +decide [stage_data, e0, e1, infix_append_cons_iff, List.infix_cons_iff, hP, hpat,
      hph, hen, hmode]

/-- C3 (as the code has it): when none of the toolkit prefix, the pattern,
the emitted calibration name, the homologue prefix, the user suffix and
the mode tag contains ` Show=false`, the third of the five commands
contains ` Show=false` and none of the other four does. -/
theorem DoAll_Show_only_third (tk : Toolkit) (args : Args) (Quick : Bool)
    (a : cAppli_Martini) (prep : List Event)
    (hctor : cAppli_Martini.ctor tk args Quick = some (a, prep))
    (hP : ¬ Frag " Show=false" (tk.MM3dBinFile_quotes "TestLib "))
    (hpat : ¬ Frag " Show=false" args.Pat)
    (hname : args.OriCalib.isSome = true → ¬ Frag " Show=false" a.mNameOriCalib)
    (hph : ¬ Frag " Show=false" (args.SH.getD ""))
    (hen : ¬ Frag " Show=false" (args.ExtName.getD ""))
    (hmode : ¬ Frag " Show=false" (args.ModeNO.getD "Std")) :
    ∃ c1 c2 c3 c4 c5, commands (a.DoAll tk) = [c1, c2, c3, c4, c5]
      ∧ Frag " Show=false" c3
      ∧ ¬ Frag " Show=false" c1 ∧ ¬ Frag " Show=false" c2
      ∧ ¬ Frag " Show=false" c4 ∧ ¬ Frag " Show=false" c5 := by
  obtain ⟨h1, -, -, h4, h5, h6, h7, -, -⟩ := ctor_fields tk args Quick a prep hctor
  rw [← h1] at hpat
  rw [← h4] at hph
  rw [← h5] at hen
  rw [← h6] at hmode
  rw [← h7] at hname
  refine ⟨_, _, _, _, _, commands_DoAll tk a, ?_, ?_, ?_, ?_, ?_⟩
  · exact (FullCom_fragments tk a _ _).2.2.2.1
  · exact FullCom_noShow tk a _ (Or.inl rfl) hP hpat hname hph hen hmode
  · exact FullCom_noShow tk a _ (Or.inr (Or.inl rfl)) hP hpat hname hph hen hmode
  · exact FullCom_noShow tk a _ (Or.inr (Or.inr (Or.inl rfl))) hP hpat hname hph hen hmode
  · exact FullCom_noShow tk a _ (Or.inr (Or.inr (Or.inr rfl))) hP hpat hname hph hen hmode

theorem DoAll_Show_only_third_witness :
    cAppli_Martini.ctor sampleToolkit scenarioPrintArgs true = some (scenarioPrintAppli, [])
    ∧ ∃ c1 c2 c3 c4 c5,
      commands (scenarioPrintAppli.DoAll sampleToolkit) = [c1, c2, c3, c4, c5]
      ∧ Frag " Show=false" c3
      ∧ ¬ Frag " Show=false" c1 ∧ ¬ Frag " Show=false" c2
      ∧ ¬ Frag " Show=false" c4 ∧ ¬ Frag " Show=false" c5 :=
  ⟨by decide,
   DoAll_Show_only_third sampleToolkit scenarioPrintArgs true scenarioPrintAppli []
     (by decide) (by decide) (by decide) (by decide) (by decide) (by decide) (by decide)⟩

set_option maxRecDepth 100000 in
/-- C3 (as stated) fails: with the homologue prefix `A Show=false` the first
command contains ` Show=false` too. -/
theorem DoAll_Show_in_first_command :
    (cAppli_Martini.ctor sampleToolkit showInPrefHomArgs true).map
        (fun p => (commands (p.1.DoAll sampleToolkit)).head?) =
      some (some
        "mm3d TestLib NO_AllOri2Im \"IMG.*JPG\" Quick=1 PrefHom=A Show=false ExtName= ModeNO=Std")
    ∧ Frag " Show=false"
        "mm3d TestLib NO_AllOri2Im \"IMG.*JPG\" Quick=1 PrefHom=A Show=false ExtName= ModeNO=Std" := by
  decide

/-- C4 (as the code has it): when none of the toolkit prefix, the pattern,
the homologue prefix, the user suffix and the mode tag contains
`OriCalib=`, the fragment `OriCalib=` is present in each of the five
commands if and only if a calibration name was supplied; when it is
supplied as `OriCalib=AllRel` each command contains ` OriCalib=AllRel`. -/
theorem DoAll_OriCalib_iff (tk : SpecToolkit) (args : Args) (Quick : Bool)
    (a : cAppli_Martini) (prep : List Event)
    (hctor : cAppli_Martini.ctor tk.toToolkit args Quick = some (a, prep)) :
    (commands (a.DoAll tk.toToolkit)).length = 5
    ∧ (¬ Frag "OriCalib=" (tk.MM3dBinFile_quotes "TestLib ") →
        ¬ Frag "OriCalib=" args.Pat →
        ¬ Frag "OriCalib=" (args.SH.getD "") →
        ¬ Frag "OriCalib=" (args.ExtName.getD "") →
        ¬ Frag "OriCalib=" (args.ModeNO.getD "Std") →
        (∀ c ∈ commands (a.DoAll tk.toToolkit),
          (Frag "OriCalib=" c ↔ args.OriCalib.isSome = true))
        ∧ ((∀ c ∈ commands (a.DoAll tk.toToolkit), Frag "OriCalib=" c)
          ↔ args.OriCalib.isSome = true))
    ∧ (args.OriCalib.isSome = true →
        ∀ c ∈ commands (a.DoAll tk.toToolkit), Frag (" OriCalib=" ++ a.mNameOriCalib) c)
    ∧ (args.OriCalib = some "AllRel" →
        ∀ c ∈ commands (a.DoAll tk.toToolkit), Frag " OriCalib=AllRel" c) := by
  obtain ⟨h1, -, -, h4, h5, h6, h7, h8, -⟩ :=
    ctor_fields tk.toToolkit args Quick a prep hctor
  rw [← h7]
  have hforall : ∀ (p : String → Prop),
      (∀ c ∈ commands (a.DoAll tk.toToolkit), p c) ↔
        ∀ sp ∈ specStages, p (a.FullCom tk.toToolkit sp.1 sp.2) := by
    intro p
    rw [commands_DoAll]
    simp [specStages]
  have hyes : a.mNameOriCalibIsInit = true → ∀ sp ∈ specStages,
      Frag (" OriCalib=" ++ a.mNameOriCalib) (a.FullCom tk.toToolkit sp.1 sp.2) := by
    intro hi sp _
    exact (FullCom_fragments tk.toToolkit a sp.1 sp.2).2.1 hi
  have hshort : ∀ s : String, Frag "OriCalib=" (" OriCalib=" ++ s) := by
    intro s
    exact Frag_of_left _ (by decide)
  refine ⟨by rw [commands_DoAll]; rfl, ?_, ?_, ?_⟩
  · intro hP hpat hph hen hmode
    rw [← h1] at hpat
    rw [← h4] at hph
    rw [← h5] at hen
    rw [← h6] at hmode
    have hno : a.mNameOriCalibIsInit = false → ∀ sp ∈ specStages,
        ¬ Frag "OriCalib=" (a.FullCom tk.toToolkit sp.1 sp.2) := by
      intro hi sp hsp
      exact FullCom_noOriCalib tk.toToolkit a sp.1 sp.2 hsp hi hP hpat hph hen hmode
    have heach : ∀ sp ∈ specStages,
        (Frag "OriCalib=" (a.FullCom tk.toToolkit sp.1 sp.2)
          ↔ a.mNameOriCalibIsInit = true) := by
      intro sp hsp
      cases hi : a.mNameOriCalibIsInit
      · simpa using hno hi sp hsp
      · simpa using Frag_trans (hshort _) (hyes hi sp hsp)
    refine ⟨(hforall _).mpr heach, ?_⟩
    rw [hforall]
    constructor
    · intro h
      exact (heach _ (List.mem_cons_self _ _)).mp (h _ (List.mem_cons_self _ _))
    · intro hi sp hsp
      exact (heach sp hsp).mpr hi
  · intro hi
    exact (hforall _).mpr (hyes hi)
  · intro hsup
    have hi : a.mNameOriCalibIsInit = true := by rw [h7, hsup]; rfl
    have hn : a.mNameOriCalib = "AllRel" := by
      rw [hsup] at h8
      exact tk.StdCorrecNameOrient_AllRel _ _ h8
    have h10 := (hforall _).mpr (hyes hi)
    rw [hn] at h10
    exact h10

theorem DoAll_OriCalib_iff_witness :
    cAppli_Martini.ctor sampleSpecToolkit.toToolkit scenarioCalibArgs true
      = some (scenarioCalibAppli, [])
    ∧ (commands (scenarioCalibAppli.DoAll sampleSpecToolkit.toToolkit)).length = 5
    ∧ ((∀ c ∈ commands (scenarioCalibAppli.DoAll sampleSpecToolkit.toToolkit),
          (Frag "OriCalib=" c ↔ scenarioCalibArgs.OriCalib.isSome = true))
        ∧ ((∀ c ∈ commands (scenarioCalibAppli.DoAll sampleSpecToolkit.toToolkit),
            Frag "OriCalib=" c) ↔ scenarioCalibArgs.OriCalib.isSome = true))
    ∧ (∀ c ∈ commands (scenarioCalibAppli.DoAll sampleSpecToolkit.toToolkit),
        Frag (" OriCalib=" ++ scenarioCalibAppli.mNameOriCalib) c)
    ∧ (∀ c ∈ commands (scenarioCalibAppli.DoAll sampleSpecToolkit.toToolkit),
        Frag " OriCalib=AllRel" c) :=
  ⟨by decide,
   (DoAll_OriCalib_iff sampleSpecToolkit scenarioCalibArgs true scenarioCalibAppli []
     (by decide)).1,
   (DoAll_OriCalib_iff sampleSpecToolkit scenarioCalibArgs true scenarioCalibAppli []
     (by decide)).2.1 (by decide) (by decide) (by decide) (by decide) (by decide),
   (DoAll_OriCalib_iff sampleSpecToolkit scenarioCalibArgs true scenarioCalibAppli []
     (by decide)).2.2.1 (by decide),
   (DoAll_OriCalib_iff sampleSpecToolkit scenarioCalibArgs true scenarioCalibAppli []
     (by decide)).2.2.2 (by decide)⟩

set_option maxRecDepth 100000 in
/-- C4 (as stated) fails: with no calibration name supplied and the
homologue prefix `OriCalib=X`, every one of the five commands contains
`OriCalib=`. -/
theorem DoAll_OriCalib_without_calibration :
    calibInPrefHomArgs.OriCalib = none
    ∧ (cAppli_Martini.ctor sampleToolkit calibInPrefHomArgs true).map
        (fun p => commands (p.1.DoAll sampleToolkit)) =
      some
        ["mm3d TestLib NO_AllOri2Im \"IMG.*JPG\" Quick=1 PrefHom=OriCalib=X ExtName= ModeNO=Std",
         "mm3d TestLib NO_AllImTriplet \"IMG.*JPG\" Quick=1 PrefHom=OriCalib=X ExtName= ModeNO=Std",
         "mm3d TestLib NO_GenTripl \"IMG.*JPG\" Quick=1 Show=false PrefHom=OriCalib=X ExtName= ModeNO=Std",
         "mm3d TestLib NO_AllImOptTrip \"IMG.*JPG\" Quick=1 PrefHom=OriCalib=X ExtName= ModeNO=Std",
         "mm3d TestLib NO_SolInit3 \"IMG.*JPG\" Quick=1 PrefHom=OriCalib=X ExtName= ModeNO=Std"]
    ∧ Frag "OriCalib="
        "mm3d TestLib NO_AllOri2Im \"IMG.*JPG\" Quick=1 PrefHom=OriCalib=X ExtName= ModeNO=Std"
    ∧ Frag "OriCalib="
        "mm3d TestLib NO_AllImTriplet \"IMG.*JPG\" Quick=1 PrefHom=OriCalib=X ExtName= ModeNO=Std"
    ∧ Frag "OriCalib="
        "mm3d TestLib NO_GenTripl \"IMG.*JPG\" Quick=1 Show=false PrefHom=OriCalib=X ExtName= ModeNO=Std"
    ∧ Frag "OriCalib="
        "mm3d TestLib NO_AllImOptTrip \"IMG.*JPG\" Quick=1 PrefHom=OriCalib=X ExtName= ModeNO=Std"
    ∧ Frag "OriCalib="
        "mm3d TestLib NO_SolInit3 \"IMG.*JPG\" Quick=1 PrefHom=OriCalib=X ExtName= ModeNO=Std" := by
  decide

/-- C6: the mode is resolved by looking up `eModeNO_` followed by the tag
(`Foo` gives `eModeNO_Foo`, the default tag is `Std`); when the lookup
fails, as for an unknown tag `Bogus`, the driver stops during construction
and no stage command is emitted or run. -/
theorem ModeNO_lookup (tk : Toolkit) (args : Args) (Quick : Bool) :
    (∀ T : String, ToTypeNO tk T = tk.Str2eTypeModeNO ("eModeNO_" ++ T))
    ∧ ToTypeNO tk "Foo" = tk.Str2eTypeModeNO "eModeNO_Foo"
    ∧ (args.ModeNO = none → ∀ (a : cAppli_Martini) (prep : List Event),
        cAppli_Martini.ctor tk args Quick = some (a, prep) →
        a.mNameModeNO = "Std" ∧ tk.Str2eTypeModeNO "eModeNO_Std" = some a.mModeNO)
    ∧ (∀ T : String, args.ModeNO = some T → ∀ (a : cAppli_Martini) (prep : List Event),
        cAppli_Martini.ctor tk args Quick = some (a, prep) →
        a.mNameModeNO = T ∧ tk.Str2eTypeModeNO ("eModeNO_" ++ T) = some a.mModeNO)
    ∧ (∀ T : String, args.ModeNO = some T → tk.Str2eTypeModeNO ("eModeNO_" ++ T) = none →
        cAppli_Martini.ctor tk args Quick = none
        ∧ CPP_Gene_Martini_main tk args Quick = (none, [])
        ∧ commands (CPP_Gene_Martini_main tk args Quick).2 = [])
    ∧ (args.ModeNO = some "Bogus" → tk.Str2eTypeModeNO "eModeNO_Bogus" = none →
        CPP_Gene_Martini_main tk args Quick = (none, [])
        ∧ commands (CPP_Gene_Martini_main tk args Quick).2 = []) := by
  have hfail : ∀ T : String, args.ModeNO = some T →
      tk.Str2eTypeModeNO ("eModeNO_" ++ T) = none →
      cAppli_Martini.ctor tk args Quick = none
      ∧ CPP_Gene_Martini_main tk args Quick = (none, [])
      ∧ commands (CPP_Gene_Martini_main tk args Quick).2 = [] := by
    intro T hT hnone
    have hc : cAppli_Martini.ctor tk args Quick = none := by
      unfold cAppli_Martini.ctor ToTypeNO
      simp only [hT, Option.getD_some, hnone]
    have hm : CPP_Gene_Martini_main tk args Quick = (none, []) := by
      unfold CPP_Gene_Martini_main
      rw [hc]
    exact ⟨hc, hm, by rw [hm]; rfl⟩
  refine ⟨fun _ => rfl, rfl, ?_, ?_, hfail, ?_⟩
  · intro hnone a prep h
    obtain ⟨-, -, -, -, -, h6, -, -, h9⟩ := ctor_fields tk args Quick a prep h
    rw [hnone] at h6 h9
    exact ⟨h6, h9⟩
  · intro T hT a prep h
    obtain ⟨-, -, -, -, -, h6, -, -, h9⟩ := ctor_fields tk args Quick a prep h
    rw [hT] at h6 h9
    exact ⟨h6, h9⟩
  · intro hT hnone
    exact (hfail "Bogus" hT hnone).2

theorem ModeNO_lookup_witness :
    (scenarioBogusArgs.ModeNO = some "Bogus"
      ∧ sampleToolkit.Str2eTypeModeNO "eModeNO_Bogus" = none)
    ∧ CPP_Gene_Martini_main sampleToolkit scenarioBogusArgs true = (none, [])
    ∧ commands (CPP_Gene_Martini_main sampleToolkit scenarioBogusArgs true).2 = [] :=
  ⟨by decide,
   (ModeNO_lookup sampleToolkit scenarioBogusArgs true).2.2.2.2.2 (by decide) (by decide)⟩

theorem StartsWith_append (s t : String) : StartsWith (s ++ t) s := by
  unfold StartsWith; rw [String.data_append]; exact List.prefix_append _ _

theorem StartsWith_of_left {s h : String} (t : String) (hs : StartsWith s h) :
    StartsWith (s ++ t) h :=
  List.IsPrefix.trans hs (StartsWith_append s t)

theorem FullCom_quoted_pattern (tk : Toolkit) (a : cAppli_Martini) (aCom aPost : String) :
    StartsWith (a.FullCom tk aCom aPost)
      (tk.MM3dBinFile_quotes "TestLib " ++ aCom ++ " " ++ "\"" ++ a.mPat ++ "\"" ++ " ") := by
  unfold StartsWith
  rw [FullCom_data]
  have e1 : " ".data = [' '] := rfl
  have e2 : "\"".data = ['"'] := rfl
  cases a.mNameOriCalibIsInit <;> simp [String.data_append, e1, e2]

set_option maxRecDepth 100000 in
/-- C5, evaluated: every command of `StdCom` has the pattern wrapped in
double quotes between the stage name and the next argument, while the two
commands of `OneTest` carry the pattern bare; at the pattern `IMG.*JPG`
the two commands the harness runs contain no double quote at all. -/
theorem OneTest_pattern_not_quoted :
    (∀ (tk : Toolkit) (a : cAppli_Martini) (aCom aPost : String),
        StartsWith (a.FullCom tk aCom aPost)
          (tk.MM3dBinFile_quotes "TestLib " ++ aCom ++ " " ++ "\"" ++ a.mPat ++ "\"" ++ " "))
    ∧ (∀ (tk : Toolkit) (a : cAppliTestMartini) (aDist aVGFact aProbaSel : ℚ),
        StartsWith (a.ComRat tk aDist aVGFact aProbaSel)
          (tk.MMBinFile tk.MM3DStr ++ " Ratafia " ++ a.mPat ++ " Out=")
        ∧ StartsWith (a.ComMartini tk)
          (tk.MMBinFile tk.MM3DStr ++ " Martini " ++ a.mPat ++ " ExtName=TM"))
    ∧ (cAppli_Martini.ctor sampleToolkit scenarioPrintArgs true).map
        (fun p => (commands (p.1.DoAll sampleToolkit)).head?) =
      some (some
        "mm3d TestLib NO_AllOri2Im \"IMG.*JPG\" Quick=1 PrefHom= ExtName= ModeNO=Std")
    ∧ spawned ((cAppliTestMartini.ctor scenarioTestArgs).OneTest sampleToolkit 2 0 0 0).2 =
        ["mm3d Ratafia IMG.*JPG Out=TestMartini DistPMul=R MVG=R OriCalib=C ProbaSel=R",
         "mm3d Martini IMG.*JPG ExtName=TM SH=TestMartini OriCalib=C"]
    ∧ ¬ Frag "\""
        "mm3d Ratafia IMG.*JPG Out=TestMartini DistPMul=R MVG=R OriCalib=C ProbaSel=R"
    ∧ ¬ Frag "\"" "mm3d Martini IMG.*JPG ExtName=TM SH=TestMartini OriCalib=C" := by
  refine ⟨FullCom_quoted_pattern, ?_, by decide, by decide, by decide, by decide⟩
  intro tk a aDist aVGFact aProbaSel
  constructor
  · exact StartsWith_of_left _ (StartsWith_of_left _ (StartsWith_of_left _
      (StartsWith_of_left _ (StartsWith_of_left _ (StartsWith_of_left _
      (StartsWith_of_left _ (StartsWith_of_left _ (StartsWith_of_left _
      (List.prefix_refl _)))))))))
  · exact StartsWith_of_left _ (StartsWith_of_left _ (StartsWith_of_left _
      (StartsWith_of_left _ (List.prefix_refl _))))

end NewOri
